import Mathlib

/-!
Verification of the natural-language specification of `pydcm2niix`
(`pydcm2niix/conversion.py`) against a shallow embedding of that module.

Modelling conventions:
* Python strings are `String`; `str.lower()` is ASCII lowering (`lowerStr`);
  the substring test `a in b` is `strContains b a`.
* DICOM float values (SAR, the Philips private MT value) are modelled as
  rationals; `pyStr` models CPython's `str(float)` for values whose shortest
  decimal rendering is exact, which covers every value the module compares.
* Fallible Python code returns `Except PyErr`; the distinct Python exception
  classes and their messages are the `PyErr` constructors.
* Filesystem and subprocess effects are driven by an `Env` oracle
  (`os.path.exists`, `os.listdir`, `dicom.read_file`, `subprocess.check_output`,
  the two `tempfile.mkdtemp` results) and every effectful function additionally
  returns the list of external actions (`Event`) it performed, in order.
-/

/-! ## String helpers (Python `str` operations) -/

/-- `isPre pre l`: `pre` is a prefix of the character list `l`. -/
def isPre : List Char → List Char → Bool
  | [], _ => true
  | _ :: _, [] => false
  | c :: cs, d :: ds => c == d && isPre cs ds

/-- `hasSub needle hay`: `needle` occurs contiguously inside `hay`
(Python's `needle in hay` on strings). -/
def hasSub (needle : List Char) : List Char → Bool
  | [] => needle.isEmpty
  | c :: t => isPre needle (c :: t) || hasSub needle t

/-- Python `sub in s` (substring containment). -/
def strContains (s sub : String) : Bool := hasSub sub.data s.data

/-- Python `s.endswith(suff)`. -/
def strEndsWith (s suff : String) : Bool := isPre suff.data.reverse s.data.reverse

/-- Python `s.startswith(pre)`. -/
def strStartsWith (s pre : String) : Bool := isPre pre.data s.data

/-- Python `s.lower()` (ASCII; the manufacturer strings involved are ASCII). -/
def lowerStr (s : String) : String := String.mk (s.data.map Char.toLower)

def emptyLit : String := ""
def slashLit : String := "/"
def dotLit : String := "."

/-- Index (from the front) of the last `'/'` in a character list, if any. -/
def lastSlash (cs : List Char) : Option Nat :=
  match cs.reverse.findIdx? (fun c => c == '/') with
  | none => none
  | some j => some (cs.length - 1 - j)

def stripTrailingSlashes (cs : List Char) : List Char :=
  (cs.reverse.dropWhile (fun c => c == '/')).reverse

/-- POSIX `os.path.split`: `(os.path.dirname p, os.path.basename p)`. -/
def ospathSplit (p : String) : String × String :=
  match lastSlash p.data with
  | none => (emptyLit, p)
  | some i =>
    let head0 := p.data.take (i + 1)
    let tail := p.data.drop (i + 1)
    let head := if head0.all (fun c => c == '/') then head0 else stripTrailingSlashes head0
    (String.mk head, String.mk tail)

/-- POSIX `os.path.join` for the one- and two-argument shapes the module uses. -/
def ospathJoin (a b : String) : String :=
  if strStartsWith b slashLit then b
  else if a == emptyLit then b
  else if strEndsWith a slashLit then a ++ b
  else a ++ slashLit ++ b

/-! ## Python float rendering -/

def padZeros (k : Nat) (s : String) : String :=
  String.mk (List.replicate (k - s.length) '0') ++ s

def dotZero : String := ".0"
def dashLit : String := "-"

/-- The least number of decimal digits (up to float precision) that renders
`q` exactly, when one exists. -/
def decDigitsK (q : ℚ) : Option Nat :=
  (List.range 18).find? (fun k => q.num * Int.ofNat (Nat.pow 10 k) % Int.ofNat q.den == 0)

/-- CPython `str(float)` (equivalently `repr`), modelled on exact decimal
values: the shortest decimal digit string, always with at least one digit
after the point.  All SAR / private-tag values the module ever renders or
compares are such values. -/
def pyStr (q : ℚ) : String :=
  match decDigitsK q with
  | some k =>
    let n : Int := q.num * Int.ofNat (Nat.pow 10 k) / Int.ofNat q.den
    if k == 0 then toString n ++ dotZero
    else
      let a := n.natAbs
      let ip := a / Nat.pow 10 k
      let fp := a % Nat.pow 10 k
      (if n < 0 then dashLit else emptyLit) ++ toString ip ++ dotLit ++ padZeros k (toString fp)
  | none => toString q

/-- Python `repr` of a string, as used by `'{0!r}'.format(...)` (quoting
only; none of the rendered strings contain characters needing escapes). -/
def pyReprStr (s : String) : String :=
  String.singleton (Char.ofNat 39) ++ s ++ String.singleton (Char.ofNat 39)

/-- `'{0!r}'`-rendering of an optional string (`None` renders as `None`). -/
def pyReprOpt : Option String → String
  | none => String.mk ['N', 'o', 'n', 'e']
  | some s => pyReprStr s

/-! ## Data model -/

/-- The DICOM header fields `conversion.py` reads.  `Manufacturer`,
`ScanOptions` and `SequenceVariant` are the named attributes; `SAR` is the
value of tag `(0x0018, 0x1316)` (also reachable as the named `SAR`
attribute) and `philipsPrivate` the value of the private tag
`(0x2005, 0x10a0)`.  Multi-valued attributes are lists of tokens; numeric
values are rationals (see `pyStr`). -/
structure DicomHeader where
  Manufacturer : String
  ScanOptions : List String
  SequenceVariant : List String
  SAR : ℚ
  philipsPrivate : ℚ
deriving DecidableEq

/-- The Python exceptions `conversion.py` can raise, with their payloads. -/
inductive PyErr
  | valueError (msg : String)
  | exception (msg : String)
  | fileExistsError (path : String)
  | calledProcessError (returncode : Int) (output : String)
  | unboundLocalError (var : String)
  | indexError
  | typeError
deriving DecidableEq

deriving instance DecidableEq for Except

/-! ## Classifier (`_is_mt_on_*`, `_is_mt_on`) -/

def geLit : String := "ge"
def philipsLit : String := "philips"
def hitachiLit : String := "hitachi"
def siemensLit : String := "siemens"
def toshibaLit : String := "toshiba"
def geTok : String := "MT_GEMS"
def mtTok : String := "MT"
def mtcTok : String := "MTC"
def geErrMsg : String := "Not a GE header"
def philipsErrMsg : String := "Not a Philips header"
def hitachiErrMsg : String := "Not a Hitachi header"
def siemensErrMsg : String := "Not a Siemens header"
def toshibaErrMsg : String := "Not a Toshiba header"

/-- `conversion.py:10-15` (`_is_mt_on_philips`). -/
def _is_mt_on_philips (h : DicomHeader) : Except PyErr Bool :=
  if strContains (lowerStr h.Manufacturer) philipsLit then
    Except.ok (decide (0 < h.philipsPrivate))
  else Except.error (PyErr.valueError philipsErrMsg)

/-- The message of `conversion.py:24-26`:
`'SAR value is neither min nor max (val: {0!r}, min: {1!r}, max: {2!r})'`. -/
def ambiguousSarMsg (v : String) (mn mx : Option String) : String :=
  "SAR value is neither min nor max (val: " ++ pyReprStr v ++ ", min: " ++
    pyReprOpt mn ++ ", max: " ++ pyReprOpt mx ++ ")"

/-- Python `a == b` where `a : str` and `b` is a string or `None`. -/
def sarEq (s : String) : Option String → Bool
  | none => false
  | some t => s == t

/-- `conversion.py:18-28` (`_is_mt_on_toshiba`).  `min_sar`/`max_sar` arrive
as `None` when `_is_mt_on` is called without them. -/
def _is_mt_on_toshiba (h : DicomHeader) (min_sar max_sar : Option String) : Except PyErr Bool :=
  if strContains (lowerStr h.Manufacturer) toshibaLit then
    let sar_value := pyStr h.SAR
    if !sarEq sar_value min_sar && !sarEq sar_value max_sar then
      Except.error (PyErr.valueError (ambiguousSarMsg sar_value min_sar max_sar))
    else Except.ok (sarEq sar_value max_sar)
  else Except.error (PyErr.valueError toshibaErrMsg)

/-- `conversion.py:31-36` (`_is_mt_on_siemens`). -/
def _is_mt_on_siemens (h : DicomHeader) : Except PyErr Bool :=
  if strContains (lowerStr h.Manufacturer) siemensLit then
    Except.ok (h.ScanOptions.contains mtTok)
  else Except.error (PyErr.valueError siemensErrMsg)

/-- `conversion.py:39-44` (`_is_mt_on_hitachi`). -/
def _is_mt_on_hitachi (h : DicomHeader) : Except PyErr Bool :=
  if strContains (lowerStr h.Manufacturer) hitachiLit then
    Except.ok (h.SequenceVariant.contains mtcTok)
  else Except.error (PyErr.valueError hitachiErrMsg)

/-- `conversion.py:47-52` (`_is_mt_on_ge`). -/
def _is_mt_on_ge (h : DicomHeader) : Except PyErr Bool :=
  if strContains (lowerStr h.Manufacturer) geLit then
    Except.ok (h.ScanOptions.contains geTok)
  else Except.error (PyErr.valueError geErrMsg)

/-- `conversion.py:55-66` (`_is_mt_on`).  The Python function returns a
`bool` from a matched vendor branch and falls off the end (returning `None`)
when no vendor substring matches; the result is therefore `Option Bool`. -/
def _is_mt_on (h : DicomHeader) (min_sar max_sar : Option String) : Except PyErr (Option Bool) :=
  let manuf := lowerStr h.Manufacturer
  if strContains manuf geLit then (_is_mt_on_ge h).map some
  else if strContains manuf philipsLit then (_is_mt_on_philips h).map some
  else if strContains manuf hitachiLit then (_is_mt_on_hitachi h).map some
  else if strContains manuf siemensLit then (_is_mt_on_siemens h).map some
  else if strContains manuf toshibaLit then (_is_mt_on_toshiba h min_sar max_sar).map some
  else Except.ok none

/-- Python truthiness of the `_is_mt_on` result as used in
`if _is_mt_on(...)`: `None` and `False` are falsy. -/
def truthy : Option Bool → Bool
  | some true => true
  | _ => false

/-! ## Effect model -/

/-- External actions a conversion run performs, in order. -/
inductive Event
  | mkdtemp (dir : String)
  | copy (src dstDir : String)
  | subprocess (cmd : List String)
  | rmtree (dir : String)
deriving DecidableEq

/-- Result of `subprocess.check_output`: combined captured output on exit
status zero, or the `CalledProcessError` data on a non-zero exit. -/
inductive ProcOut
  | ok (output : String)
  | fail (returncode : Int) (output : String)
deriving DecidableEq

/-- Oracle for the external world: `os.path.exists`, `os.listdir`,
`dicom.read_file` (parse assumed to succeed; parse failure is outside the
claims considered here), `subprocess.check_output`, and the two directory
names `tempfile.mkdtemp` hands out during one `dicom_to_nifti_mt` run. -/
structure Env where
  pathExists : String → Bool
  listing : String → List String
  header : String → DicomHeader
  run : List String → ProcOut
  tmpOn : String
  tmpOff : String

def dcm2niixLit : String := "dcm2niix"
def zFlag : String := "-z"
def oFlag : String := "-o"
def fFlag : String := "-f"
def pLit : String := "p"
def nLit : String := "n"
def niiGzExt : String := ".nii.gz"
def niiExt : String := ".nii"
def warningLit : String := "warning"
def compressVar : String := "compress"

/-- The suffix analysis of `conversion.py:75-80`: output basename stem and
`-z` selector.  `none` models the `if/elif` falling through with the local
`compress` (and the trimmed `filename`) never assigned. -/
def stemCompress (filename : String) : Option (String × String) :=
  if strEndsWith filename niiGzExt then some (filename.dropRight 7, pLit)
  else if strEndsWith filename niiExt then some (filename.dropRight 4, nLit)
  else none

/-- `conversion.py:69-87` (`_run_dcm2niix`).  Returns the events performed
and the outcome.  Reading the unassigned `compress` while building `cmd`
raises `UnboundLocalError`; a captured output containing `warning`
(case-insensitively) raises `CalledProcessError(0, cmd, output)` even though
the process exited zero. -/
def _run_dcm2niix (env : Env) (dicom_dir nifti_filename : String) :
    List Event × Except PyErr Unit :=
  if env.pathExists nifti_filename then
    ([], Except.error (PyErr.fileExistsError nifti_filename))
  else
    match stemCompress (ospathSplit nifti_filename).2 with
    | none => ([], Except.error (PyErr.unboundLocalError compressVar))
    | some (stem, compress) =>
      let dirname :=
        if (ospathSplit nifti_filename).1 == emptyLit then dotLit
        else (ospathSplit nifti_filename).1
      let cmd := [dcm2niixLit, zFlag, compress, oFlag, dirname, fFlag, stem, dicom_dir]
      match env.run cmd with
      | ProcOut.fail code out =>
        ([Event.subprocess cmd], Except.error (PyErr.calledProcessError code out))
      | ProcOut.ok out =>
        if strContains (lowerStr out) warningLit then
          ([Event.subprocess cmd], Except.error (PyErr.calledProcessError 0 out))
        else ([Event.subprocess cmd], Except.ok ())

/-! ## SAR range (`_sar_range`) -/

def minEmptyMsg : String := "min() arg is an empty sequence"

/-- `conversion.py:90-93` (`_sar_range`).  `set(...)` is modelled by
`List.dedup` (Python's `min`/`max` over the set depend only on which values
are present); `min()` over an empty collection raises `ValueError`. -/
def _sar_range (dicoms : List DicomHeader) : Except PyErr (String × String) :=
  match (dicoms.map (fun d => d.SAR)).dedup with
  | [] => Except.error (PyErr.valueError minEmptyMsg)
  | x :: xs => Except.ok (pyStr (xs.foldl min x), pyStr (xs.foldl max x))

/-! ## Orchestrator (`dicom_to_nifti_mt`) -/

def mtFailMsg (dicom_dir : String) : String :=
  "MT sequence detection failed (" ++ pyReprStr dicom_dir ++ ")"

/-- The `(path, header)` pairs built in `conversion.py:98-101`. -/
def dicomsOf (env : Env) (dicom_dir : String) : List (String × DicomHeader) :=
  (env.listing dicom_dir).map
    (fun f => (ospathJoin dicom_dir f, env.header (ospathJoin dicom_dir f)))

/-- The partition loop of `conversion.py:106-112`: classify each record,
copy it to the matching staging directory, track the two `mt_found` flags.
A classifier exception aborts the loop (events so far already happened). -/
def mtPartition (min_sar max_sar mton_dir mtoff_dir : String) :
    List (String × DicomHeader) → List Event → Bool → Bool →
    List Event × Except PyErr (Bool × Bool)
  | [], evs, onF, offF => (evs, Except.ok (onF, offF))
  | (fn, hdr) :: rest, evs, onF, offF =>
    match _is_mt_on hdr (some min_sar) (some max_sar) with
    | Except.error e => (evs, Except.error e)
    | Except.ok r =>
      if truthy r then
        mtPartition min_sar max_sar mton_dir mtoff_dir rest
          (evs ++ [Event.copy fn mton_dir]) true offF
      else
        mtPartition min_sar max_sar mton_dir mtoff_dir rest
          (evs ++ [Event.copy fn mtoff_dir]) onF true

/-- `conversion.py:96-117` (`dicom_to_nifti_mt`). -/
def dicom_to_nifti_mt (env : Env) (dicom_dir mton_name mtoff_name : String) :
    List Event × Except PyErr Unit :=
  let dicoms := dicomsOf env dicom_dir
  match _sar_range (dicoms.map Prod.snd) with
  | Except.error e => ([], Except.error e)
  | Except.ok (min_sar, max_sar) =>
    let evs0 := [Event.mkdtemp env.tmpOn, Event.mkdtemp env.tmpOff]
    match mtPartition min_sar max_sar env.tmpOn env.tmpOff dicoms evs0 false false with
    | (evs, Except.error e) => (evs, Except.error e)
    | (evs, Except.ok (onF, offF)) =>
      if onF && offF then
        match _run_dcm2niix env env.tmpOn mton_name with
        | (evs1, Except.error e) => (evs ++ evs1, Except.error e)
        | (evs1, Except.ok _) =>
          match _run_dcm2niix env env.tmpOff mtoff_name with
          | (evs2, Except.error e) =>
            (evs ++ evs1 ++ [Event.rmtree env.tmpOn] ++ evs2, Except.error e)
          | (evs2, Except.ok _) =>
            (evs ++ evs1 ++ [Event.rmtree env.tmpOn] ++ evs2 ++ [Event.rmtree env.tmpOff],
             Except.ok ())
      else (evs, Except.error (PyErr.exception (mtFailMsg dicom_dir)))

/-! ## Top-level dispatch (`dicom_to_nifti`) -/

/-- The untyped `dest` argument of `dicom_to_nifti`: callers pass either a
pair of output names (for the MT path, which indexes `dest[0]`/`dest[1]`)
or a single output path (passed straight to `_run_dcm2niix`). -/
inductive PyDest
  | pair (a b : String)
  | path (p : String)
deriving DecidableEq

/-- `conversion.py:120-125` (`dicom_to_nifti`).  In Python `is_mtr`
defaults to `False`.  When `is_mtr` is truthy the code evaluates `dest[0]`
and `dest[1]`; on a plain string those are its first two characters (or an
`IndexError` when it is too short). -/
def dicom_to_nifti (env : Env) (src : String) (dest : PyDest) (is_mtr : Bool) :
    List Event × Except PyErr Unit :=
  if is_mtr then
    match dest with
    | PyDest.pair a b => dicom_to_nifti_mt env src a b
    | PyDest.path p =>
      match p.data with
      | c0 :: c1 :: _ => dicom_to_nifti_mt env src (String.mk [c0]) (String.mk [c1])
      | _ => ([], Except.error PyErr.indexError)
  else
    match dest with
    | PyDest.pair _ _ => ([], Except.error PyErr.typeError)
    | PyDest.path p => _run_dcm2niix env src p

def mtrLit : String := "mtr"
def mtonDefault : String := "mton.nii.gz"
def mtoffDefault : String := "mtoff.nii.gz"

/-- Modelled from the spec (section 4.5): the designator-based dispatcher
the spec describes — given a source directory, an output directory and a
sequence designator, run the orchestrator with the fixed default output
names inside the output directory when the designator is `"mtr"`, and
otherwise run the converter writing `<sequence>.nii.gz` into the output
directory.  Stated only for comparison with the source's `dicom_to_nifti`,
whose actual arguments are a destination and a boolean flag. -/
def dicom_to_nifti_specform (env : Env) (src outdir seq : String) :
    List Event × Except PyErr Unit :=
  if seq == mtrLit then
    dicom_to_nifti_mt env src (ospathJoin outdir mtonDefault) (ospathJoin outdir mtoffDefault)
  else
    _run_dcm2niix env src (ospathJoin outdir (seq ++ niiGzExt))

/-! ## Concrete fixtures used by witnesses and counterexamples -/

def acmeManuf : String := "ACME MRI"
def siemensManuf : String := "SIEMENS"
def toshibaManuf : String := "TOSHIBA"
def srcDirLit : String := "dicoms"
def outDirLit : String := "out"
def outNiiLit : String := "series.nii"
def outStemLit : String := "series"
def t1Lit : String := "t1"
def badOutLit : String := "series.txt"
def gzOutLit : String := "series.nii.gz"
def fileALit : String := "a.dcm"
def fileBLit : String := "b.dcm"
def okOutLit : String := "1 volume converted"
def tmpOnLit : String := "/tmp/stage-mton"
def tmpOffLit : String := "/tmp/stage-mtoff"
def oneStr : String := "1.0"
def twoStr : String := "2.0"
def threeStr : String := "3.0"

def hdrUnknown : DicomHeader := DicomHeader.mk acmeManuf [] [] (mkRat 1 1) (mkRat 0 1)
def hdrSiemensOn : DicomHeader := DicomHeader.mk siemensManuf [mtTok] [] (mkRat 1 1) (mkRat 0 1)
def hdrTosh1 : DicomHeader := DicomHeader.mk toshibaManuf [] [] (mkRat 1 1) (mkRat 0 1)
def hdrTosh2 : DicomHeader := DicomHeader.mk toshibaManuf [] [] (mkRat 2 1) (mkRat 0 1)
def hdrTosh15 : DicomHeader := DicomHeader.mk toshibaManuf [] [] (mkRat 3 2) (mkRat 0 1)
def hdrSar1 : DicomHeader := DicomHeader.mk acmeManuf [] [] (mkRat 1 1) (mkRat 0 1)
def hdrSar2 : DicomHeader := DicomHeader.mk acmeManuf [] [] (mkRat 2 1) (mkRat 0 1)
def hdrSar3 : DicomHeader := DicomHeader.mk acmeManuf [] [] (mkRat 3 1) (mkRat 0 1)

/-- A quiet world: nothing exists yet, the source directory holds two
files, every file parses to the same Siemens MT-on header, and the
converter always exits zero with a warning-free output. -/
def envBasic : Env :=
  Env.mk (fun _ => false) (fun _ => [fileALit, fileBLit]) (fun _ => hdrSiemensOn)
    (fun _ => ProcOut.ok okOutLit) tmpOnLit tmpOffLit

/-- A world in which every output path already exists. -/
def envExists : Env :=
  Env.mk (fun _ => true) (fun _ => [fileALit, fileBLit]) (fun _ => hdrSiemensOn)
    (fun _ => ProcOut.ok okOutLit) tmpOnLit tmpOffLit

/-! ## Helper lemmas -/

/-- `List.foldl min` computes a member of `x :: xs` that bounds it below. -/
theorem foldlMinSpec (xs : List ℚ) : ∀ x : ℚ,
    xs.foldl min x ∈ x :: xs ∧ ∀ y ∈ x :: xs, xs.foldl min x ≤ y := by
  induction xs with
  | nil =>
    intro x
    refine ⟨List.mem_cons_self x [], ?_⟩
    intro y hy
    rcases List.mem_cons.mp hy with h | h
    · rw [h, List.foldl_nil]
    · exact absurd h (List.not_mem_nil y)
  | cons z zs ih =>
    intro x
    have h := ih (min x z)
    constructor
    · simp only [List.foldl_cons]
      rcases List.mem_cons.mp h.1 with h1 | h1
      · rcases min_choice x z with hc | hc
        · rw [h1, hc]; exact List.mem_cons_self _ _
        · rw [h1, hc]; exact List.mem_cons_of_mem _ (List.mem_cons_self _ _)
      · exact List.mem_cons_of_mem _ (List.mem_cons_of_mem _ h1)
    · intro y hy
      simp only [List.foldl_cons]
      have hfold := h.2 (min x z) (List.mem_cons_self _ _)
      rcases List.mem_cons.mp hy with h1 | h1
      · rw [h1]; exact le_trans hfold (min_le_left x z)
      · rcases List.mem_cons.mp h1 with h2 | h2
        · rw [h2]; exact le_trans hfold (min_le_right x z)
        · exact h.2 y (List.mem_cons_of_mem _ h2)

/-- `List.foldl max` computes a member of `x :: xs` that bounds it above. -/
theorem foldlMaxSpec (xs : List ℚ) : ∀ x : ℚ,
    xs.foldl max x ∈ x :: xs ∧ ∀ y ∈ x :: xs, y ≤ xs.foldl max x := by
  induction xs with
  | nil =>
    intro x
    refine ⟨List.mem_cons_self x [], ?_⟩
    intro y hy
    rcases List.mem_cons.mp hy with h | h
    · rw [h, List.foldl_nil]
    · exact absurd h (List.not_mem_nil y)
  | cons z zs ih =>
    intro x
    have h := ih (max x z)
    constructor
    · simp only [List.foldl_cons]
      rcases List.mem_cons.mp h.1 with h1 | h1
      · rcases max_choice x z with hc | hc
        · rw [h1, hc]; exact List.mem_cons_self _ _
        · rw [h1, hc]; exact List.mem_cons_of_mem _ (List.mem_cons_self _ _)
      · exact List.mem_cons_of_mem _ (List.mem_cons_of_mem _ h1)
    · intro y hy
      simp only [List.foldl_cons]
      have hfold := h.2 (max x z) (List.mem_cons_self _ _)
      rcases List.mem_cons.mp hy with h1 | h1
      · rw [h1]; exact le_trans (le_max_left x z) hfold
      · rcases List.mem_cons.mp h1 with h2 | h2
        · rw [h2]; exact le_trans (le_max_right x z) hfold
        · exact h.2 y (List.mem_cons_of_mem _ h2)

/-- When no vendor substring matches the manufacturer, `_is_mt_on` falls
through every branch and returns `None`. -/
theorem is_mt_on_unknown (h : DicomHeader) (min_sar max_sar : Option String)
    (hg : strContains (lowerStr h.Manufacturer) geLit = false)
    (hp : strContains (lowerStr h.Manufacturer) philipsLit = false)
    (hh : strContains (lowerStr h.Manufacturer) hitachiLit = false)
    (hs : strContains (lowerStr h.Manufacturer) siemensLit = false)
    (ht : strContains (lowerStr h.Manufacturer) toshibaLit = false) :
    _is_mt_on h min_sar max_sar = Except.ok none := by
  simp [_is_mt_on, hg, hp, hh, hs, ht]

/-- The partition loop when every record classifies to the same side `b`:
all copies land in the matching staging directory and only that side's
flag can become set. -/
theorem mtPartition_const (mnS mxS ond offd : String) (b : Bool) :
    ∀ (l : List (String × DicomHeader)) (evs : List Event) (onF offF : Bool),
      (∀ p ∈ l, Except.map truthy (_is_mt_on p.2 (some mnS) (some mxS)) = Except.ok b) →
      mtPartition mnS mxS ond offd l evs onF offF =
        (evs ++ l.map (fun p => Event.copy p.1 (if b then ond else offd)),
         Except.ok (onF || (b && !l.isEmpty), offF || (!b && !l.isEmpty))) := by
  intro l
  induction l with
  | nil =>
    intro evs onF offF _
    simp [mtPartition]
  | cons p rest ih =>
    intro evs onF offF hall
    obtain ⟨fn, hdr⟩ := p
    have h0 := hall (fn, hdr) (List.mem_cons_self _ _)
    have hrest : ∀ q ∈ rest,
        Except.map truthy (_is_mt_on q.2 (some mnS) (some mxS)) = Except.ok b :=
      fun q hq => hall q (List.mem_cons_of_mem _ hq)
    cases hm : _is_mt_on hdr (some mnS) (some mxS) with
    | error e =>
      rw [hm] at h0
      simp [Except.map] at h0
    | ok r =>
      rw [hm] at h0
      have hr : truthy r = b := by simpa [Except.map] using h0
      cases b with
      | true =>
        simp only [mtPartition, hm, hr, if_true]
        rw [ih _ _ _ hrest]
        simp
      | false =>
        simp only [mtPartition, hm, hr, Bool.false_eq_true, if_false]
        rw [ih _ _ _ hrest]
        simp

/-! ## Claims -/

/-- C5: for every output path that already exists, `_run_dcm2niix` fails
with `FileExistsError` carrying that path before performing any conversion
work: the event trace is empty, so no subprocess is launched and no file is
touched; re-running a conversion against the same output path therefore
always fails on this existence check instead of overwriting. -/
theorem run_dcm2niix_existing_output_fails (env : Env) (dicom_dir nifti_filename : String)
    (hex : env.pathExists nifti_filename = true) :
    _run_dcm2niix env dicom_dir nifti_filename =
      ([], Except.error (PyErr.fileExistsError nifti_filename)) := by
  simp [_run_dcm2niix, hex]

/-- Witness for C5: in a world where the output already exists, the call
fails on the existence check with an empty event trace. -/
theorem run_dcm2niix_existing_output_fails_witness :
    _run_dcm2niix envExists srcDirLit gzOutLit =
      ([], Except.error (PyErr.fileExistsError gzOutLit)) :=
  run_dcm2niix_existing_output_fails envExists srcDirLit gzOutLit rfl

/-- C10: for every output path that does not yet exist and whose basename
ends in neither `.nii` nor `.nii.gz`, `_run_dcm2niix` raises
`UnboundLocalError` for the never-assigned local `compress` while building
the command: the event trace is empty, so no subprocess is launched and no
output file is written. -/
theorem run_dcm2niix_bad_suffix_unbound (env : Env) (dicom_dir nifti_filename : String)
    (hex : env.pathExists nifti_filename = false)
    (h1 : strEndsWith (ospathSplit nifti_filename).2 niiGzExt = false)
    (h2 : strEndsWith (ospathSplit nifti_filename).2 niiExt = false) :
    _run_dcm2niix env dicom_dir nifti_filename =
      ([], Except.error (PyErr.unboundLocalError compressVar)) := by
  simp [_run_dcm2niix, stemCompress, hex, h1, h2]

/-- Witness for C10: an output name ending in `.txt` trips the unassigned
`compress` local with no subprocess launched. -/
theorem run_dcm2niix_bad_suffix_unbound_witness :
    _run_dcm2niix envBasic srcDirLit badOutLit =
      ([], Except.error (PyErr.unboundLocalError compressVar)) :=
  run_dcm2niix_bad_suffix_unbound envBasic srcDirLit badOutLit rfl (by decide) (by decide)

/-- C6: when the output path is fresh and its suffix is supported, the
converter subprocess is launched exactly once and, with the process exiting
zero, the call raises `CalledProcessError` carrying the captured output
precisely when that output contains `warning` case-insensitively; a
warning-free output raises nothing. -/
theorem run_dcm2niix_warning_failure (env : Env) (dicom_dir nifti_filename st z : String)
    (hex : env.pathExists nifti_filename = false)
    (hsc : stemCompress (ospathSplit nifti_filename).2 = some (st, z))
    (hzero : ∀ c, ∃ s, env.run c = ProcOut.ok s) :
    ∃ cmd s, env.run cmd = ProcOut.ok s ∧
      _run_dcm2niix env dicom_dir nifti_filename =
        ([Event.subprocess cmd],
         if strContains (lowerStr s) warningLit then
           Except.error (PyErr.calledProcessError 0 s)
         else Except.ok ()) := by
  obtain ⟨s, hs⟩ := hzero [dcm2niixLit, zFlag, z, oFlag,
    (if (ospathSplit nifti_filename).1 == emptyLit then dotLit
     else (ospathSplit nifti_filename).1), fFlag, st, dicom_dir]
  refine ⟨_, s, hs, ?_⟩
  simp only [_run_dcm2niix, hex, Bool.false_eq_true, if_false, hsc, hs]
  cases hc : strContains (lowerStr s) warningLit <;> simp [hc]

/-- Witness for C6: a fresh `.nii.gz` output in a warning-free world. -/
theorem run_dcm2niix_warning_failure_witness :
    ∃ cmd s, envBasic.run cmd = ProcOut.ok s ∧
      _run_dcm2niix envBasic srcDirLit gzOutLit =
        ([Event.subprocess cmd],
         if strContains (lowerStr s) warningLit then
           Except.error (PyErr.calledProcessError 0 s)
         else Except.ok ()) :=
  run_dcm2niix_warning_failure envBasic srcDirLit gzOutLit outStemLit pLit rfl (by decide)
    (fun _ => ⟨okOutLit, rfl⟩)

/-- C4: for every Toshiba header (Manufacturer containing `toshiba`
case-insensitively) and strings `min_sar`, `max_sar`, the Toshiba rule
returns `True` iff the record's SAR value rendered as a string equals
`max_sar`; it returns `False` when that string equals `min_sar` but not
`max_sar`; and it raises the ambiguous-SAR `ValueError` when it equals
neither. -/
theorem toshiba_sar_classification (h : DicomHeader) (mn mx : String)
    (hv : strContains (lowerStr h.Manufacturer) toshibaLit = true) :
    (_is_mt_on_toshiba h (some mn) (some mx) = Except.ok true ↔ pyStr h.SAR = mx) ∧
    (pyStr h.SAR = mn → pyStr h.SAR ≠ mx →
      _is_mt_on_toshiba h (some mn) (some mx) = Except.ok false) ∧
    (pyStr h.SAR ≠ mn → pyStr h.SAR ≠ mx →
      _is_mt_on_toshiba h (some mn) (some mx) =
        Except.error (PyErr.valueError (ambiguousSarMsg (pyStr h.SAR) (some mn) (some mx)))) := by
  by_cases hmx : pyStr h.SAR = mx
  · by_cases hmn : pyStr h.SAR = mn <;>
      simp [_is_mt_on_toshiba, sarEq, hv, hmn, hmx]
  · by_cases hmn : pyStr h.SAR = mn <;>
      simp [_is_mt_on_toshiba, sarEq, hv, hmn, hmx]

/-- Witness for C4: with `min_sar="1.0"`, `max_sar="2.0"`, a Toshiba header
with SAR 2.0 classifies MT-on, SAR 1.0 classifies MT-off, and SAR 1.5
raises the ambiguous-SAR error. -/
theorem toshiba_sar_classification_witness :
    _is_mt_on_toshiba hdrTosh2 (some oneStr) (some twoStr) = Except.ok true ∧
    _is_mt_on_toshiba hdrTosh1 (some oneStr) (some twoStr) = Except.ok false ∧
    _is_mt_on_toshiba hdrTosh15 (some oneStr) (some twoStr) =
      Except.error (PyErr.valueError
        (ambiguousSarMsg (pyStr hdrTosh15.SAR) (some oneStr) (some twoStr))) :=
  ⟨(toshiba_sar_classification hdrTosh2 oneStr twoStr (by decide)).1.mpr (by decide),
   (toshiba_sar_classification hdrTosh1 oneStr twoStr (by decide)).2.1 (by decide) (by decide),
   (toshiba_sar_classification hdrTosh15 oneStr twoStr (by decide)).2.2 (by decide) (by decide)⟩

/-- C7: for every header whose Manufacturer contains none of the five known
vendor substrings (case-insensitively), the dispatcher `_is_mt_on` returns
the indeterminate `None` rather than a boolean. -/
theorem is_mt_on_unknown_vendor_none (h : DicomHeader) (min_sar max_sar : Option String)
    (hg : strContains (lowerStr h.Manufacturer) geLit = false)
    (hp : strContains (lowerStr h.Manufacturer) philipsLit = false)
    (hh : strContains (lowerStr h.Manufacturer) hitachiLit = false)
    (hs : strContains (lowerStr h.Manufacturer) siemensLit = false)
    (ht : strContains (lowerStr h.Manufacturer) toshibaLit = false) :
    _is_mt_on h min_sar max_sar = Except.ok none :=
  is_mt_on_unknown h min_sar max_sar hg hp hh hs ht

/-- Witness for C7: an `ACME MRI` header yields the indeterminate result. -/
theorem is_mt_on_unknown_vendor_none_witness :
    _is_mt_on hdrUnknown none none = Except.ok none :=
  is_mt_on_unknown_vendor_none hdrUnknown none none
    (by decide) (by decide) (by decide) (by decide) (by decide)

/-- C8: each of the five vendor rules raises its `Not a ... header`
`ValueError` on any header whose Manufacturer does not contain that
vendor's name case-insensitively; the result depends on no other header
field (the statement quantifies over all signal-field values), so the
mismatch fires before any signal field is read. -/
theorem vendor_mismatch_guards :
    (∀ h : DicomHeader, strContains (lowerStr h.Manufacturer) geLit = false →
      _is_mt_on_ge h = Except.error (PyErr.valueError geErrMsg)) ∧
    (∀ h : DicomHeader, strContains (lowerStr h.Manufacturer) philipsLit = false →
      _is_mt_on_philips h = Except.error (PyErr.valueError philipsErrMsg)) ∧
    (∀ h : DicomHeader, strContains (lowerStr h.Manufacturer) hitachiLit = false →
      _is_mt_on_hitachi h = Except.error (PyErr.valueError hitachiErrMsg)) ∧
    (∀ h : DicomHeader, strContains (lowerStr h.Manufacturer) siemensLit = false →
      _is_mt_on_siemens h = Except.error (PyErr.valueError siemensErrMsg)) ∧
    (∀ (h : DicomHeader) (mn mx : Option String),
      strContains (lowerStr h.Manufacturer) toshibaLit = false →
      _is_mt_on_toshiba h mn mx = Except.error (PyErr.valueError toshibaErrMsg)) := by
  refine ⟨?_, ?_, ?_, ?_, ?_⟩
  · intro h hcond; simp [_is_mt_on_ge, hcond]
  · intro h hcond; simp [_is_mt_on_philips, hcond]
  · intro h hcond; simp [_is_mt_on_hitachi, hcond]
  · intro h hcond; simp [_is_mt_on_siemens, hcond]
  · intro h mn mx hcond; simp [_is_mt_on_toshiba, hcond]

/-- Witness for C8: all five rules reject an `ACME MRI` header. -/
theorem vendor_mismatch_guards_witness :
    _is_mt_on_ge hdrUnknown = Except.error (PyErr.valueError geErrMsg) ∧
    _is_mt_on_philips hdrUnknown = Except.error (PyErr.valueError philipsErrMsg) ∧
    _is_mt_on_hitachi hdrUnknown = Except.error (PyErr.valueError hitachiErrMsg) ∧
    _is_mt_on_siemens hdrUnknown = Except.error (PyErr.valueError siemensErrMsg) ∧
    _is_mt_on_toshiba hdrUnknown (some oneStr) (some twoStr) =
      Except.error (PyErr.valueError toshibaErrMsg) :=
  ⟨vendor_mismatch_guards.1 hdrUnknown (by decide),
   vendor_mismatch_guards.2.1 hdrUnknown (by decide),
   vendor_mismatch_guards.2.2.1 hdrUnknown (by decide),
   vendor_mismatch_guards.2.2.2.1 hdrUnknown (by decide),
   vendor_mismatch_guards.2.2.2.2 hdrUnknown (some oneStr) (some twoStr) (by decide)⟩

/-- C9 (implicit): inside the orchestrator's partition loop, a record whose
Manufacturer matches no known vendor gets the falsy `None` classification
and is therefore copied into the MT-off staging directory, setting the
MT-off population flag, rather than raising an error. -/
theorem unknown_vendor_counts_mtoff (min_sar max_sar mton_dir mtoff_dir fn : String)
    (hdr : DicomHeader) (rest : List (String × DicomHeader)) (evs : List Event)
    (onF offF : Bool)
    (hg : strContains (lowerStr hdr.Manufacturer) geLit = false)
    (hp : strContains (lowerStr hdr.Manufacturer) philipsLit = false)
    (hh : strContains (lowerStr hdr.Manufacturer) hitachiLit = false)
    (hs : strContains (lowerStr hdr.Manufacturer) siemensLit = false)
    (ht : strContains (lowerStr hdr.Manufacturer) toshibaLit = false) :
    mtPartition min_sar max_sar mton_dir mtoff_dir ((fn, hdr) :: rest) evs onF offF =
      mtPartition min_sar max_sar mton_dir mtoff_dir rest
        (evs ++ [Event.copy fn mtoff_dir]) onF true := by
  have h0 := is_mt_on_unknown hdr (some min_sar) (some max_sar) hg hp hh hs ht
  simp [mtPartition, h0, truthy]

/-- Witness for C9: one `ACME MRI` record is copied to the MT-off staging
directory and sets the MT-off flag. -/
theorem unknown_vendor_counts_mtoff_witness :
    mtPartition oneStr twoStr tmpOnLit tmpOffLit [(fileALit, hdrUnknown)] [] false false =
      mtPartition oneStr twoStr tmpOnLit tmpOffLit []
        ([] ++ [Event.copy fileALit tmpOffLit]) false true :=
  unknown_vendor_counts_mtoff oneStr twoStr tmpOnLit tmpOffLit fileALit hdrUnknown [] []
    false false (by decide) (by decide) (by decide) (by decide) (by decide)

/-- C2: for every non-empty header list, `_sar_range` converts the SAR
values, deduplicates, takes the numeric minimum and maximum, and returns
the two extremes re-rendered in their string form (`pyStr`, the `str` of
the float value): the returned pair renders two SAR values occurring in
the input that bound every input SAR value below and above; in particular
over SAR values `{1.0, 3.0, 2.0}` it returns `("1.0", "3.0")`. -/
theorem sar_range_extremes :
    (∀ dicoms : List DicomHeader, dicoms ≠ [] →
      ∃ lo hi : ℚ,
        lo ∈ dicoms.map (fun d => d.SAR) ∧ hi ∈ dicoms.map (fun d => d.SAR) ∧
        (∀ v ∈ dicoms.map (fun d => d.SAR), lo ≤ v ∧ v ≤ hi) ∧
        _sar_range dicoms = Except.ok (pyStr lo, pyStr hi)) ∧
    _sar_range [hdrSar1, hdrSar3, hdrSar2] = Except.ok (oneStr, threeStr) := by
  constructor
  · intro ds hne
    have hm : ds.map (fun d => d.SAR) ≠ [] := by
      intro h0
      exact hne (List.map_eq_nil_iff.mp h0)
    have hd : (ds.map (fun d => d.SAR)).dedup ≠ [] := by
      intro h0
      exact hm ((List.dedup_eq_nil _).mp h0)
    obtain ⟨x, xs, hxs⟩ := List.exists_cons_of_ne_nil hd
    refine ⟨xs.foldl min x, xs.foldl max x, ?_, ?_, ?_, ?_⟩
    · have h1 := (foldlMinSpec xs x).1
      rw [← hxs] at h1
      exact List.mem_dedup.mp h1
    · have h1 := (foldlMaxSpec xs x).1
      rw [← hxs] at h1
      exact List.mem_dedup.mp h1
    · intro v hv
      have hv2 : v ∈ x :: xs := by
        rw [← hxs]
        exact List.mem_dedup.mpr hv
      exact ⟨(foldlMinSpec xs x).2 v hv2, (foldlMaxSpec xs x).2 v hv2⟩
    · simp only [_sar_range, hxs]
  · decide

/-- Witness for C2: the general statement applied to the three-header list
with SAR values 1.0, 3.0, 2.0. -/
theorem sar_range_extremes_witness :
    ∃ lo hi : ℚ,
      lo ∈ [hdrSar1, hdrSar3, hdrSar2].map (fun d => d.SAR) ∧
      hi ∈ [hdrSar1, hdrSar3, hdrSar2].map (fun d => d.SAR) ∧
      (∀ v ∈ [hdrSar1, hdrSar3, hdrSar2].map (fun d => d.SAR), lo ≤ v ∧ v ≤ hi) ∧
      _sar_range [hdrSar1, hdrSar3, hdrSar2] = Except.ok (pyStr lo, pyStr hi) :=
  sar_range_extremes.1 [hdrSar1, hdrSar3, hdrSar2] (by decide)

/-- C3: when every record of the source directory classifies (under the
computed SAR range) to the same MT side `b`, the orchestrator
`dicom_to_nifti_mt` raises the `MT sequence detection failed` exception
and never invokes the converter: its event trace contains no subprocess
launch, so zero output files are produced. -/
theorem mt_single_population_fails (env : Env) (dicom_dir mton_name mtoff_name : String)
    (b : Bool) (mnS mxS : String)
    (hsar : _sar_range ((dicomsOf env dicom_dir).map Prod.snd) = Except.ok (mnS, mxS))
    (hall : ∀ p ∈ dicomsOf env dicom_dir,
      Except.map truthy (_is_mt_on p.2 (some mnS) (some mxS)) = Except.ok b) :
    (dicom_to_nifti_mt env dicom_dir mton_name mtoff_name).2 =
      Except.error (PyErr.exception (mtFailMsg dicom_dir)) ∧
    ∀ c, Event.subprocess c ∉ (dicom_to_nifti_mt env dicom_dir mton_name mtoff_name).1 := by
  have hne : dicomsOf env dicom_dir ≠ [] := by
    intro h0
    rw [h0] at hsar
    simp [_sar_range] at hsar
  have hie : (dicomsOf env dicom_dir).isEmpty = false := by
    cases hh : dicomsOf env dicom_dir with
    | nil => exact absurd hh hne
    | cons a l => rfl
  have hpart := mtPartition_const mnS mxS env.tmpOn env.tmpOff b (dicomsOf env dicom_dir)
    [Event.mkdtemp env.tmpOn, Event.mkdtemp env.tmpOff] false false hall
  rw [hie] at hpart
  simp only [Bool.not_false, Bool.and_true, Bool.false_or] at hpart
  constructor
  · simp [dicom_to_nifti_mt, hsar, hpart, Bool.and_not_self]
  · intro c hc
    simp only [dicom_to_nifti_mt, hsar, hpart, Bool.and_not_self, Bool.false_eq_true,
      if_false, List.mem_append, List.mem_cons, List.mem_map, List.not_mem_nil,
      or_false] at hc
    rcases hc with (h1 | h1) | ⟨p, _, h1⟩ <;> exact Event.noConfusion h1

/-- Witness for C3: a directory of two files that both classify Siemens
MT-on leaves the MT-off side empty, so the run fails with MT-detection
failure and launches no subprocess. -/
theorem mt_single_population_fails_witness :
    (dicom_to_nifti_mt envBasic srcDirLit mtonDefault mtoffDefault).2 =
      Except.error (PyErr.exception (mtFailMsg srcDirLit)) ∧
    ∀ c, Event.subprocess c ∉ (dicom_to_nifti_mt envBasic srcDirLit mtonDefault mtoffDefault).1 :=
  mt_single_population_fails envBasic srcDirLit mtonDefault mtoffDefault true oneStr oneStr
    (by decide) (by decide)

/-- C1 counterexample: the claim says every non-"mtr" dispatch runs the
converter producing exactly one compressed (`.nii.gz`) output named after
the sequence.  But `dicom_to_nifti` takes a destination path and a boolean
flag, not an output directory and a designator: dispatching with the
destination `series.nii` (and the flag false) launches the converter with
the uncompressed selector `n` on an output that is not a `.nii.gz` file,
so the dispatcher is not always-compressed and derives no name itself. -/
theorem dicom_to_nifti_mtr_flag_cex :
    dicom_to_nifti envBasic srcDirLit (PyDest.path outNiiLit) false =
      ([Event.subprocess [dcm2niixLit, zFlag, nLit, oFlag, dotLit, fFlag, outStemLit, srcDirLit]],
       Except.ok ()) ∧
    nLit ≠ pLit ∧ strEndsWith outNiiLit niiGzExt = false := by
  refine ⟨by decide, by decide, by decide⟩

/-- C1 (amended): `dicom_to_nifti` dispatches on the boolean `is_mtr` with
a caller-supplied destination: the flag set runs the orchestrator with
output names `dest[0]`/`dest[1]`, the flag clear runs the converter on the
destination path (compressed only when that path ends in `.nii.gz`).  It
coincides with the spec's designator-based dispatcher exactly when the
caller passes the flag `seq == "mtr"` together with the corresponding
joined destination — the pair of fixed default names inside the output
directory for `"mtr"`, or `<sequence>.nii.gz` inside it otherwise. -/
theorem dicom_to_nifti_dispatch_amended :
    (∀ (env : Env) (src a b : String),
      dicom_to_nifti env src (PyDest.pair a b) true = dicom_to_nifti_mt env src a b) ∧
    (∀ (env : Env) (src p : String),
      dicom_to_nifti env src (PyDest.path p) false = _run_dcm2niix env src p) ∧
    (∀ (env : Env) (src outdir seq : String), seq = mtrLit →
      dicom_to_nifti env src
          (PyDest.pair (ospathJoin outdir mtonDefault) (ospathJoin outdir mtoffDefault)) true =
        dicom_to_nifti_specform env src outdir seq) ∧
    (∀ (env : Env) (src outdir seq : String), seq ≠ mtrLit →
      dicom_to_nifti env src (PyDest.path (ospathJoin outdir (seq ++ niiGzExt))) false =
        dicom_to_nifti_specform env src outdir seq) := by
  refine ⟨fun env src a b => rfl, fun env src p => rfl, ?_, ?_⟩
  · intro env src outdir seq hseq
    subst hseq
    rfl
  · intro env src outdir seq hseq
    have hb : (seq == mtrLit) = false := beq_eq_false_iff_ne.mpr hseq
    simp [dicom_to_nifti, dicom_to_nifti_specform, hb]

/-- Witness for C1 (amended): the correspondence at `seq = "mtr"` and at
the ordinary sequence `t1`. -/
theorem dicom_to_nifti_dispatch_amended_witness :
    dicom_to_nifti envBasic srcDirLit
        (PyDest.pair (ospathJoin outDirLit mtonDefault) (ospathJoin outDirLit mtoffDefault))
        true =
      dicom_to_nifti_specform envBasic srcDirLit outDirLit mtrLit ∧
    dicom_to_nifti envBasic srcDirLit
        (PyDest.path (ospathJoin outDirLit (t1Lit ++ niiGzExt))) false =
      dicom_to_nifti_specform envBasic srcDirLit outDirLit t1Lit :=
  ⟨dicom_to_nifti_dispatch_amended.2.2.1 envBasic srcDirLit outDirLit mtrLit rfl,
   dicom_to_nifti_dispatch_amended.2.2.2 envBasic srcDirLit outDirLit t1Lit (by decide)⟩
